import Mathlib

/-!
Shallow embedding of the CXL-DMSim `CXLMemory` device
(`src/dev/storage/cxl_memory.cc`): the admission-controlled queue-and-retry
bridging engine (CXLResponsePort / CXLRequestPort) and the NMP bypass
coordination logic, together with the statistics they update.

Time is modelled in ticks (`Nat`).  `TimeCtx` carries the current tick
(`curTick()`) and the current clock edge (`clockEdge()`); the framework's
`clockEdge(lat)` is `edge + lat * clockPeriod`.  Statistics distributions are
modelled as the list of sampled values; scalar statistics as `Nat`.
Calls the device makes to external collaborators (event scheduling,
`sendRetryReq`, `ThreadContext::activate`, forwarding on `nmpMemPort`) are
recorded in ghost log fields so they are observable in theorems.
Operations that can hit a `panic`/`assert` return `Option`: `none` means the
simulation aborts.
-/

namespace CXLDMSim

/-- Operation kind of a request/response item (spec data model: read|write). -/
inductive MemOp
  | read
  | write
deriving DecidableEq, Repr

/-- A protocol packet, with the fields the modelled code inspects:
command kind, address/size, `needsResponse()`, `cacheResponding()`,
`headerDelay`/`payloadDelay`, and the request issue timestamp
`pkt->req->time()` used by the bypass latency accounting. -/
@[ext]
structure Packet where
  op : MemOp
  addr : Nat
  size : Nat
  needsResponse : Bool
  cacheResponding : Bool
  headerDelay : Nat
  payloadDelay : Nat
  reqTime : Nat
deriving DecidableEq, Repr

/-- A deferred-send queue entry: the packet, its scheduled send tick
(`tick`) and its enqueue time (`entryTime`, set to `curTick()` at
enqueue; the constructor lives in the header, per the spec's
Deferred-Send Entry: item, scheduled-time, enqueue-time). -/
@[ext]
structure DeferredPacket where
  pkt : Packet
  tick : Nat
  entryTime : Nat
deriving DecidableEq, Repr

/-- The `CXLCtrlStats` group: counters as `Nat`, distributions as the list
of sampled values. -/
@[ext]
structure CXLCtrlStats where
  reqQueFullEvents : Nat
  reqRetryCounts : Nat
  rspQueFullEvents : Nat
  reqSendFaild : Nat
  rspSendFaild : Nat
  reqSendSucceed : Nat
  rspSendSucceed : Nat
  reqQueueLenDist : List Nat
  rspQueueLenDist : List Nat
  rspOutStandDist : List Nat
  reqQueueLatDist : List Nat
  rspQueueLatDist : List Nat
  memToCXLCtrlRsp : List Nat
deriving DecidableEq, Repr

/-- The `NMPStats` group. `nmpActiveCycles` is a scalar that the code
assigns (not accumulates). -/
@[ext]
structure NMPStats where
  nmpMemReads : Nat
  nmpMemWrites : Nat
  nmpAccessLatency : List Nat
  nmpActiveCycles : Nat
  nmpExecutions : Nat
deriving DecidableEq, Repr

/-- Status of the NMP thread context (`ThreadContext::Active` vs the rest). -/
inductive TCStatus
  | Active
  | Suspended
  | Halted
deriving DecidableEq, Repr

/-- The slice of a gem5 `ThreadContext` the modelled code touches:
the program counter (`pcState`) and the activity status. -/
@[ext]
structure ThreadCtx where
  pc : Nat
  status : TCStatus
deriving DecidableEq, Repr

/-- Construction-time configuration: queue limits, protocol processing
latency (cycles) and the clock period (ticks per cycle). -/
structure CXLConfig where
  reqQueueLimit : Nat
  respQueueLimit : Nat
  protoProcLat : Nat
  clockPeriod : Nat
deriving DecidableEq, Repr

/-- Current simulation time: `now = curTick()` and `edge = clockEdge()`. -/
structure TimeCtx where
  now : Nat
  edge : Nat
deriving DecidableEq, Repr

/-- `clockEdge(lat)` of the hosting framework: the current clock edge plus
`lat` cycles. -/
def clockEdgeLat (cfg : CXLConfig) (tc : TimeCtx) (lat : Nat) : Nat :=
  tc.edge + lat * cfg.clockPeriod

/-- `ticksToCycles` of the hosting framework (external to src/): ticks
divided by the clock period. -/
def ticksToCycles (cfg : CXLConfig) (t : Nat) : Nat :=
  t / cfg.clockPeriod

/-- The mutable state of the whole `CXLMemory` object: the two deferred-send
queues (`transmitList` of `memReqPort` and of `cxlRspPort`), the
response-slot counter and retry flag of the ingress port, the
inter-completion timestamp `preRspTick`, both statistics groups, and the NMP
fields.  The `...Log` fields are ghost records of the calls made to external
collaborators. -/
@[ext]
structure CXLMemoryState where
  reqTransmitList : List DeferredPacket
  rspTransmitList : List DeferredPacket
  outstandingResponses : Nat
  retryReq : Bool
  preRspTick : Int
  stats : CXLCtrlStats
  nmpStats : NMPStats
  enableNMP : Bool
  nmpCPU : Bool
  nmpTC : Option ThreadCtx
  reqEventLog : List Nat
  rspEventLog : List Nat
  retrySignals : Nat
  activateLog : Nat
  nmpForwardLog : List Packet
  nmpDeliverLog : List Packet
deriving DecidableEq, Repr

/-- `Distribution::sample`: record one value. -/
def sampleDist (d : List Nat) (v : Nat) : List Nat :=
  d ++ [v]

/-- Zero the transit delays of a packet, as the ports do after reading
`headerDelay + payloadDelay`. -/
def stripDelays (pkt : Packet) : Packet :=
  { pkt with headerDelay := 0, payloadDelay := 0 }

/-- `CXLResponsePort::respQueueFull`: reports whether `outstandingResponses`
has reached the response-slot limit; as a side effect of the check it
increments `rspQueFullEvents` exactly when full. -/
def respQueueFull (cfg : CXLConfig) (s : CXLMemoryState) : Bool × CXLMemoryState :=
  if s.outstandingResponses = cfg.respQueueLimit then
    (true, { s with stats :=
      { s.stats with rspQueFullEvents := s.stats.rspQueFullEvents + 1 } })
  else
    (false, s)

/-- `CXLRequestPort::reqQueueFull`: reports whether the egress request
queue has reached its limit; as a side effect of the check it increments
`reqQueFullEvents` exactly when full. -/
def reqQueueFull (cfg : CXLConfig) (s : CXLMemoryState) : Bool × CXLMemoryState :=
  if s.reqTransmitList.length = cfg.reqQueueLimit then
    (true, { s with stats :=
      { s.stats with reqQueFullEvents := s.stats.reqQueFullEvents + 1 } })
  else
    (false, s)

/-- `CXLRequestPort::schedTimingReq`: arm the send timer at `when` if the
queue was empty, assert the queue is not at its limit (`none` = assertion
failure), append the entry and sample the new queue length. -/
def schedTimingReq (cfg : CXLConfig) (pkt : Packet) (when now : Nat)
    (s : CXLMemoryState) : Option CXLMemoryState :=
  let s1 := if s.reqTransmitList.isEmpty then
      { s with reqEventLog := s.reqEventLog ++ [when] }
    else s
  if s1.reqTransmitList.length = cfg.reqQueueLimit then
    none
  else
    let q := s1.reqTransmitList ++ [⟨pkt, when, now⟩]
    some { s1 with
      reqTransmitList := q,
      stats := { s1.stats with
        reqQueueLenDist := sampleDist s1.stats.reqQueueLenDist q.length } }

/-- `CXLResponsePort::schedTimingResp`: arm the send timer at `when` if the
queue was empty, append the entry and sample the new queue length (no
capacity assertion: space was reserved at admission). -/
def schedTimingResp (pkt : Packet) (when now : Nat)
    (s : CXLMemoryState) : CXLMemoryState :=
  let s1 := if s.rspTransmitList.isEmpty then
      { s with rspEventLog := s.rspEventLog ++ [when] }
    else s
  let q := s1.rspTransmitList ++ [⟨pkt, when, now⟩]
  { s1 with
    rspTransmitList := q,
    stats := { s1.stats with
      rspQueueLenDist := sampleDist s1.stats.rspQueueLenDist q.length } }

/-- `CXLResponsePort::retryStalledReq`: if the retry flag is set, clear it,
signal the stalled requestor (`sendRetryReq`) and count the retry. -/
def retryStalledReq (s : CXLMemoryState) : CXLMemoryState :=
  if s.retryReq then
    { s with
      retryReq := false,
      retrySignals := s.retrySignals + 1,
      stats := { s.stats with reqRetryCounts := s.stats.reqRetryCounts + 1 } }
  else s

/-- `CXLResponsePort::recvTimingReq`: the ingress admission check.
`none` models `panic_if(pkt->cacheResponding(), ...)` or the (dead)
assertion inside the reservation branch or inside `schedTimingReq`.
Returns the accept/reject answer and the new state. -/
def recvTimingReq (cfg : CXLConfig) (tc : TimeCtx) (pkt : Packet)
    (s : CXLMemoryState) : Option (Bool × CXLMemoryState) :=
  if pkt.cacheResponding then
    none
  else if s.retryReq then
    some (false, s)
  else
    let p1 := reqQueueFull cfg s
    if p1.1 then
      some (false, { p1.2 with retryReq := true })
    else
      let step2 : Option CXLMemoryState :=
        if pkt.needsResponse then
          let p2 := respQueueFull cfg p1.2
          if p2.1 then
            some { p2.2 with retryReq := true }
          else if p2.2.outstandingResponses = cfg.respQueueLimit then
            none
          else
            some { p2.2 with
              outstandingResponses := p2.2.outstandingResponses + 1,
              stats := { p2.2.stats with
                rspOutStandDist := sampleDist p2.2.stats.rspOutStandDist
                  (p2.2.outstandingResponses + 1) } }
        else
          some p1.2
      match step2 with
      | none => none
      | some s2 =>
        if s2.retryReq then
          some (false, s2)
        else
          let receiveDelay := pkt.headerDelay + pkt.payloadDelay
          match schedTimingReq cfg (stripDelays pkt)
              (clockEdgeLat cfg tc cfg.protoProcLat + receiveDelay) tc.now s2 with
          | none => none
          | some s3 => some (true, s3)

/-- `CXLRequestPort::trySendTiming` with the backend's accept answer as the
`sendOk` oracle.  `none` models the entry assertions (`!transmitList.empty()`
and `req.tick <= curTick()`). -/
def reqTrySendTiming (cfg : CXLConfig) (tc : TimeCtx) (sendOk : Bool)
    (s : CXLMemoryState) : Option CXLMemoryState :=
  match s.reqTransmitList with
  | [] => none
  | dp :: rest =>
    if tc.now < dp.tick then
      none
    else if sendOk then
      let s1 := { s with
        reqTransmitList := rest,
        stats := { s.stats with
          reqSendSucceed := s.stats.reqSendSucceed + 1,
          reqQueueLatDist := sampleDist s.stats.reqQueueLatDist
            (tc.now - dp.entryTime),
          reqQueueLenDist := sampleDist s.stats.reqQueueLenDist rest.length } }
      let s2 := match rest with
        | [] => s1
        | next :: _ =>
          { s1 with reqEventLog := s1.reqEventLog ++ [max next.tick tc.edge] }
      some (retryStalledReq s2)
    else
      some { s with stats :=
        { s.stats with reqSendFaild := s.stats.reqSendFaild + 1 } }

/-- `CXLResponsePort::trySendTiming` with the remote side's accept answer as
the `sendOk` oracle.  `none` models the entry assertions and the assertion
`outstandingResponses != 0` before the decrement.  On success, after the
decrement, `reqQueueFull()` is evaluated unconditionally (left operand of
the `&&`) and the stalled requestor is retried when the request queue has
space and the retry flag is set. -/
def rspTrySendTiming (cfg : CXLConfig) (tc : TimeCtx) (sendOk : Bool)
    (s : CXLMemoryState) : Option CXLMemoryState :=
  match s.rspTransmitList with
  | [] => none
  | dp :: rest =>
    if tc.now < dp.tick then
      none
    else if sendOk then
      if s.outstandingResponses = 0 then
        none
      else
        let s1 := { s with
          rspTransmitList := rest,
          outstandingResponses := s.outstandingResponses - 1,
          stats := { s.stats with
            rspSendSucceed := s.stats.rspSendSucceed + 1,
            rspQueueLatDist := sampleDist s.stats.rspQueueLatDist
              (tc.now - dp.entryTime),
            rspQueueLenDist := sampleDist s.stats.rspQueueLenDist rest.length,
            rspOutStandDist := sampleDist s.stats.rspOutStandDist
              (s.outstandingResponses - 1) } }
        let s2 := match rest with
          | [] => s1
          | next :: _ =>
            { s1 with rspEventLog := s1.rspEventLog ++ [max next.tick tc.edge] }
        let p := reqQueueFull cfg s2
        if p.1 then
          some p.2
        else if p.2.retryReq then
          some { p.2 with
            retryReq := false,
            retrySignals := p.2.retrySignals + 1,
            stats := { p.2.stats with
              reqRetryCounts := p.2.stats.reqRetryCounts + 1 } }
        else
          some p.2
    else
      some { s with stats :=
        { s.stats with rspSendFaild := s.stats.rspSendFaild + 1 } }

/-- `CXLRequestPort::recvTimingResp`: a backend completion arrives.  Sample
the inter-completion interval (guarded by the sentinel `preRspTick == -1`),
update `preRspTick`, strip the transit delays and enqueue the completion
toward the remote side at `clockEdge(protoProcLat) + receive_delay`.
Always returns `true`. -/
def reqRecvTimingResp (cfg : CXLConfig) (tc : TimeCtx) (pkt : Packet)
    (s : CXLMemoryState) : Bool × CXLMemoryState :=
  let s1 :=
    if s.preRspTick = -1 then
      { s with preRspTick := (tc.edge : Int) }
    else
      { s with
        preRspTick := (tc.edge : Int),
        stats := { s.stats with
          memToCXLCtrlRsp := sampleDist s.stats.memToCXLCtrlRsp
            (ticksToCycles cfg ((tc.edge : Int) - s.preRspTick).toNat) } }
  let receiveDelay := pkt.headerDelay + pkt.payloadDelay
  (true, schedTimingResp (stripDelays pkt)
    (clockEdgeLat cfg tc cfg.protoProcLat + receiveDelay) tc.now s1)

/-- `CXLMemory::startNMPExecution`: guarded no-ops (warnings only) when NMP
is disabled, no CPU handle is attached, or no thread context is acquired;
otherwise count the execution, set the PC, activate the context only if not
already active, and record the current cycle as the active-cycle baseline.
The stack pointer argument is only logged by the code. -/
def startNMPExecution (startPC stackPtr curCycle : Nat)
    (s : CXLMemoryState) : CXLMemoryState :=
  if !s.enableNMP then
    s
  else if !s.nmpCPU then
    s
  else
    match s.nmpTC with
    | none => s
    | some ctx =>
      let s1 := { s with nmpStats :=
        { s.nmpStats with nmpExecutions := s.nmpStats.nmpExecutions + 1 } }
      let ctx1 := { ctx with pc := startPC }
      let (ctx2, s2) :=
        if ctx1.status ≠ TCStatus.Active then
          ({ ctx1 with status := TCStatus.Active },
           { s1 with activateLog := s1.activateLog + 1 })
        else
          (ctx1, s1)
      { s2 with
        nmpTC := some ctx2,
        nmpStats := { s2.nmpStats with nmpActiveCycles := curCycle } }

/-- `CXLMemory::handleNMPMemoryAccess`: reject (with a warning) when NMP is
disabled; otherwise forward the packet directly to the backend via
`nmpMemPort.sendTimingReq` and return the backend's immediate answer.
Nothing is buffered locally. -/
def handleNMPMemoryAccess (backendAccepts : Bool) (pkt : Packet)
    (s : CXLMemoryState) : Bool × CXLMemoryState :=
  if !s.enableNMP then
    (false, s)
  else
    (backendAccepts, { s with nmpForwardLog := s.nmpForwardLog ++ [pkt] })

/-- `NMPMemPort::recvTimingResp`: sample the access latency
(`curTick() - pkt->req->time()`), bump the read or write counter by the
packet's operation kind, and acknowledge; both sides of the
`nmpCPU != nullptr` branch just delete the packet and return `true`
(the completion is never delivered into the processing unit). -/
def nmpRecvTimingResp (now : Nat) (pkt : Packet)
    (s : CXLMemoryState) : Bool × CXLMemoryState :=
  let s1 := { s with nmpStats := { s.nmpStats with
    nmpAccessLatency := sampleDist s.nmpStats.nmpAccessLatency
      (now - pkt.reqTime) } }
  let s2 :=
    match pkt.op with
    | MemOp.read => { s1 with nmpStats :=
        { s1.nmpStats with nmpMemReads := s1.nmpStats.nmpMemReads + 1 } }
    | MemOp.write => { s1 with nmpStats :=
        { s1.nmpStats with nmpMemWrites := s1.nmpStats.nmpMemWrites + 1 } }
  if s2.nmpCPU then
    (true, s2)
  else
    (true, s2)

/-- The ports `CXLMemory::getPort` can hand out. -/
inductive PortRef
  | cxlRspPort
  | memReqPort
  | nmpMemPort
  | dmaPort
  | pioPort (name : String)
deriving DecidableEq, Repr

/-- Result of `CXLMemory::getPort`: a port, or a simulation abort
(`panic`). -/
inductive GetPortResult
  | port (p : PortRef)
  | panicked
deriving DecidableEq, Repr

/-- `CXLMemory::getPort`: name lookup; requesting `nmp_mem_port` with NMP
disabled panics; unknown names fall through to `PioDevice::getPort`. -/
def getPort (s : CXLMemoryState) (ifName : String) : GetPortResult :=
  if ifName = "cxl_rsp_port" then
    GetPortResult.port PortRef.cxlRspPort
  else if ifName = "mem_req_port" then
    GetPortResult.port PortRef.memReqPort
  else if ifName = "nmp_mem_port" then
    if s.enableNMP then
      GetPortResult.port PortRef.nmpMemPort
    else
      GetPortResult.panicked
  else if ifName = "dma" then
    GetPortResult.port PortRef.dmaPort
  else
    GetPortResult.port (PortRef.pioPort ifName)

/-- Zeroed statistics group, as at construction. -/
def initCtrlStats : CXLCtrlStats :=
  ⟨0, 0, 0, 0, 0, 0, 0, [], [], [], [], [], []⟩

/-- Zeroed NMP statistics group. -/
def initNMPStats : NMPStats :=
  ⟨0, 0, [], 0, 0⟩

/-- The device state right after construction: empty queues, zero
outstanding responses, retry flag clear, `preRspTick` initialised to `0`
(constructor line `preRspTick(0)`), zeroed statistics, no NMP handle or
context yet. -/
def initState (enableNMP : Bool) : CXLMemoryState :=
  { reqTransmitList := []
    rspTransmitList := []
    outstandingResponses := 0
    retryReq := false
    preRspTick := 0
    stats := initCtrlStats
    nmpStats := initNMPStats
    enableNMP := enableNMP
    nmpCPU := false
    nmpTC := none
    reqEventLog := []
    rspEventLog := []
    retrySignals := 0
    activateLog := 0
    nmpForwardLog := []
    nmpDeliverLog := [] }

/-- Number of response-expecting packets held in a deferred-send queue. -/
def countResp (l : List DeferredPacket) : Nat :=
  (l.filter (fun d => d.pkt.needsResponse)).length

/-- One transition of the device, driven by its environment: an admission
attempt from the remote side, a timer-armed or retry-driven send attempt on
either deferred-send queue (with the peer's answer as an oracle), a backend
completion (the `Nat` ghost component counts response-expecting requests the
backend has received and not yet answered, so completions only arrive while
one is pending), and the NMP operations.  Steps through `Option`-valued
operations require a `some` result, i.e. a non-aborting execution. -/
inductive Step (cfg : CXLConfig) :
    CXLMemoryState × Nat → CXLMemoryState × Nat → Prop
  | recvReq (tc : TimeCtx) (pkt : Packet) (b : Bool)
      (s s' : CXLMemoryState) (fl : Nat) :
      pkt.cacheResponding = false →
      recvTimingReq cfg tc pkt s = some (b, s') →
      Step cfg (s, fl) (s', fl)
  | reqSendOk (tc : TimeCtx) (dp : DeferredPacket) (rest : List DeferredPacket)
      (s s' : CXLMemoryState) (fl : Nat) :
      s.reqTransmitList = dp :: rest →
      reqTrySendTiming cfg tc true s = some s' →
      Step cfg (s, fl) (s', fl + if dp.pkt.needsResponse then 1 else 0)
  | reqSendFail (tc : TimeCtx) (s s' : CXLMemoryState) (fl : Nat) :
      reqTrySendTiming cfg tc false s = some s' →
      Step cfg (s, fl) (s', fl)
  | backendResp (tc : TimeCtx) (pkt : Packet) (b : Bool)
      (s s' : CXLMemoryState) (fl : Nat) :
      reqRecvTimingResp cfg tc pkt s = (b, s') →
      Step cfg (s, fl + 1) (s', fl)
  | rspSend (tc : TimeCtx) (ok : Bool) (s s' : CXLMemoryState) (fl : Nat) :
      rspTrySendTiming cfg tc ok s = some s' →
      Step cfg (s, fl) (s', fl)
  | startNMP (startPC stackPtr curCycle : Nat) (s : CXLMemoryState) (fl : Nat) :
      Step cfg (s, fl) (startNMPExecution startPC stackPtr curCycle s, fl)
  | nmpAccess (acc : Bool) (pkt : Packet) (s : CXLMemoryState) (fl : Nat) :
      Step cfg (s, fl) ((handleNMPMemoryAccess acc pkt s).2, fl)
  | nmpResp (now : Nat) (pkt : Packet) (s : CXLMemoryState) (fl : Nat) :
      Step cfg (s, fl) ((nmpRecvTimingResp now pkt s).2, fl)
  | attachNMP (cpu : Bool) (tcOpt : Option ThreadCtx)
      (s : CXLMemoryState) (fl : Nat) :
      Step cfg (s, fl) ({ s with nmpCPU := cpu, nmpTC := tcOpt }, fl)

/-- A device state (with its ghost in-flight count) reachable from the
freshly constructed device. -/
def Reachable (cfg : CXLConfig) (x : CXLMemoryState × Nat) : Prop :=
  ∃ en : Bool, Relation.ReflTransGen (Step cfg) (initState en, 0) x

/-- The inductive invariant: the egress request queue respects its limit,
the outstanding-response counter respects its limit, and the counter equals
the number of response-expecting requests still queued, in flight at the
backend, or queued as responses. -/
def Inv (cfg : CXLConfig) (s : CXLMemoryState) (fl : Nat) : Prop :=
  s.reqTransmitList.length ≤ cfg.reqQueueLimit ∧
  s.outstandingResponses ≤ cfg.respQueueLimit ∧
  s.outstandingResponses = countResp s.reqTransmitList + fl + s.rspTransmitList.length

lemma countResp_append (l : List DeferredPacket) (x : DeferredPacket) :
    countResp (l ++ [x]) = countResp l + (if x.pkt.needsResponse then 1 else 0) := by
  simp only [countResp, List.filter_append, List.length_append]
  by_cases h : x.pkt.needsResponse <;> simp [h]

lemma countResp_cons (x : DeferredPacket) (l : List DeferredPacket) :
    countResp (x :: l) = (if x.pkt.needsResponse then 1 else 0) + countResp l := by
  simp only [countResp, List.filter_cons]
  by_cases h : x.pkt.needsResponse <;> simp [h] <;> omega

lemma stripDelays_needsResponse (pkt : Packet) :
    (stripDelays pkt).needsResponse = pkt.needsResponse := rfl

lemma recvTimingReq_retry_set (cfg : CXLConfig) (tc : TimeCtx) (pkt : Packet)
    (s : CXLMemoryState) (hcr : pkt.cacheResponding = false)
    (hr : s.retryReq = true) :
    recvTimingReq cfg tc pkt s = some (false, s) := by
  unfold recvTimingReq
  simp [hcr, hr]

lemma recvTimingReq_req_full (cfg : CXLConfig) (tc : TimeCtx) (pkt : Packet)
    (s : CXLMemoryState) (hcr : pkt.cacheResponding = false)
    (hr : s.retryReq = false)
    (hf : s.reqTransmitList.length = cfg.reqQueueLimit) :
    recvTimingReq cfg tc pkt s = some (false,
      { s with retryReq := true,
               stats := { s.stats with
                 reqQueFullEvents := s.stats.reqQueFullEvents + 1 } }) := by
  unfold recvTimingReq reqQueueFull
  simp [hcr, hr, hf]

lemma recvTimingReq_rsp_full (cfg : CXLConfig) (tc : TimeCtx) (pkt : Packet)
    (s : CXLMemoryState) (hcr : pkt.cacheResponding = false)
    (hr : s.retryReq = false)
    (hnf : s.reqTransmitList.length ≠ cfg.reqQueueLimit)
    (hresp : pkt.needsResponse = true)
    (hof : s.outstandingResponses = cfg.respQueueLimit) :
    recvTimingReq cfg tc pkt s = some (false,
      { s with retryReq := true,
               stats := { s.stats with
                 rspQueFullEvents := s.stats.rspQueFullEvents + 1 } }) := by
  unfold recvTimingReq reqQueueFull respQueueFull
  simp [hcr, hr, hnf, hresp, hof]

lemma recvTimingReq_accept_resp (cfg : CXLConfig) (tc : TimeCtx) (pkt : Packet)
    (s : CXLMemoryState) (hcr : pkt.cacheResponding = false)
    (hr : s.retryReq = false)
    (hnf : s.reqTransmitList.length ≠ cfg.reqQueueLimit)
    (hresp : pkt.needsResponse = true)
    (hno : s.outstandingResponses ≠ cfg.respQueueLimit) :
    recvTimingReq cfg tc pkt s = some (true,
      { s with
        reqTransmitList := s.reqTransmitList ++
          [⟨stripDelays pkt,
            clockEdgeLat cfg tc cfg.protoProcLat
              + (pkt.headerDelay + pkt.payloadDelay), tc.now⟩],
        outstandingResponses := s.outstandingResponses + 1,
        reqEventLog := s.reqEventLog ++
          (if s.reqTransmitList.isEmpty then
            [clockEdgeLat cfg tc cfg.protoProcLat
              + (pkt.headerDelay + pkt.payloadDelay)] else []),
        stats := { s.stats with
          rspOutStandDist := sampleDist s.stats.rspOutStandDist
            (s.outstandingResponses + 1),
          reqQueueLenDist := sampleDist s.stats.reqQueueLenDist
            (s.reqTransmitList.length + 1) } }) := by
  unfold recvTimingReq reqQueueFull respQueueFull schedTimingReq
  by_cases he : s.reqTransmitList.isEmpty <;>
    simp [hcr, hr, hnf, hresp, hno, he]

lemma recvTimingReq_accept_noresp (cfg : CXLConfig) (tc : TimeCtx) (pkt : Packet)
    (s : CXLMemoryState) (hcr : pkt.cacheResponding = false)
    (hr : s.retryReq = false)
    (hnf : s.reqTransmitList.length ≠ cfg.reqQueueLimit)
    (hresp : pkt.needsResponse = false) :
    recvTimingReq cfg tc pkt s = some (true,
      { s with
        reqTransmitList := s.reqTransmitList ++
          [⟨stripDelays pkt,
            clockEdgeLat cfg tc cfg.protoProcLat
              + (pkt.headerDelay + pkt.payloadDelay), tc.now⟩],
        reqEventLog := s.reqEventLog ++
          (if s.reqTransmitList.isEmpty then
            [clockEdgeLat cfg tc cfg.protoProcLat
              + (pkt.headerDelay + pkt.payloadDelay)] else []),
        stats := { s.stats with
          reqQueueLenDist := sampleDist s.stats.reqQueueLenDist
            (s.reqTransmitList.length + 1) } }) := by
  unfold recvTimingReq reqQueueFull schedTimingReq
  by_cases he : s.reqTransmitList.isEmpty <;>
    simp [hcr, hr, hnf, hresp, he]

lemma retryStalledReq_spec (s : CXLMemoryState) :
    retryStalledReq s =
      { s with
        retryReq := false,
        retrySignals := s.retrySignals + (if s.retryReq then 1 else 0),
        stats := { s.stats with
          reqRetryCounts := s.stats.reqRetryCounts
            + (if s.retryReq then 1 else 0) } } := by
  unfold retryStalledReq
  by_cases h : s.retryReq
  · simp [h]
  · simp only [Bool.not_eq_true] at h
    simp only [h, Bool.false_eq_true, if_false, if_neg]
    ext <;> simp [h]

lemma reqTrySendTiming_ok (cfg : CXLConfig) (tc : TimeCtx) (dp : DeferredPacket)
    (rest : List DeferredPacket) (s : CXLMemoryState)
    (hq : s.reqTransmitList = dp :: rest) (ht : dp.tick ≤ tc.now) :
    reqTrySendTiming cfg tc true s = some (retryStalledReq
      { s with
        reqTransmitList := rest,
        reqEventLog := s.reqEventLog ++
          (match rest with
           | [] => []
           | next :: _ => [max next.tick tc.edge]),
        stats := { s.stats with
          reqSendSucceed := s.stats.reqSendSucceed + 1,
          reqQueueLatDist := sampleDist s.stats.reqQueueLatDist
            (tc.now - dp.entryTime),
          reqQueueLenDist := sampleDist s.stats.reqQueueLenDist
            rest.length } }) := by
  unfold reqTrySendTiming
  simp only [hq]
  cases rest <;> simp [Nat.not_lt.mpr ht]

lemma reqTrySendTiming_fail (cfg : CXLConfig) (tc : TimeCtx) (dp : DeferredPacket)
    (rest : List DeferredPacket) (s : CXLMemoryState)
    (hq : s.reqTransmitList = dp :: rest) (ht : dp.tick ≤ tc.now) :
    reqTrySendTiming cfg tc false s = some
      { s with stats := { s.stats with
          reqSendFaild := s.stats.reqSendFaild + 1 } } := by
  unfold reqTrySendTiming
  simp only [hq]
  simp [Nat.not_lt.mpr ht]

lemma rspTrySendTiming_ok_fields (cfg : CXLConfig) (tc : TimeCtx)
    (dp : DeferredPacket) (rest : List DeferredPacket) (s : CXLMemoryState)
    (hq : s.rspTransmitList = dp :: rest) (ht : dp.tick ≤ tc.now)
    (ho : s.outstandingResponses ≠ 0) :
    ∃ s', rspTrySendTiming cfg tc true s = some s' ∧
      s'.rspTransmitList = rest ∧
      s'.reqTransmitList = s.reqTransmitList ∧
      s'.outstandingResponses = s.outstandingResponses - 1 ∧
      s'.stats.reqQueFullEvents = s.stats.reqQueFullEvents
        + (if s.reqTransmitList.length = cfg.reqQueueLimit then 1 else 0) := by
  unfold rspTrySendTiming reqQueueFull
  simp only [hq]
  by_cases hfull : s.reqTransmitList.length = cfg.reqQueueLimit <;>
    by_cases hretry : s.retryReq <;>
      cases rest <;>
        simp [Nat.not_lt.mpr ht, ho, hfull, hretry]

lemma rspTrySendTiming_fail (cfg : CXLConfig) (tc : TimeCtx)
    (dp : DeferredPacket) (rest : List DeferredPacket) (s : CXLMemoryState)
    (hq : s.rspTransmitList = dp :: rest) (ht : dp.tick ≤ tc.now) :
    rspTrySendTiming cfg tc false s = some
      { s with stats := { s.stats with
          rspSendFaild := s.stats.rspSendFaild + 1 } } := by
  unfold rspTrySendTiming
  simp only [hq]
  simp [Nat.not_lt.mpr ht]

lemma recvTimingReq_isSome (cfg : CXLConfig) (tc : TimeCtx) (pkt : Packet)
    (s : CXLMemoryState) (hcr : pkt.cacheResponding = false) :
    (recvTimingReq cfg tc pkt s).isSome := by
  cases hr : s.retryReq with
  | true => simp [recvTimingReq_retry_set cfg tc pkt s hcr hr]
  | false =>
    by_cases hf : s.reqTransmitList.length = cfg.reqQueueLimit
    · simp [recvTimingReq_req_full cfg tc pkt s hcr hr hf]
    · cases hresp : pkt.needsResponse with
      | false => simp [recvTimingReq_accept_noresp cfg tc pkt s hcr hr hf hresp]
      | true =>
        by_cases hof : s.outstandingResponses = cfg.respQueueLimit
        · simp [recvTimingReq_rsp_full cfg tc pkt s hcr hr hf hresp hof]
        · simp [recvTimingReq_accept_resp cfg tc pkt s hcr hr hf hresp hof]

lemma reqRecvTimingResp_fields (cfg : CXLConfig) (tc : TimeCtx) (pkt : Packet)
    (s : CXLMemoryState) :
    (reqRecvTimingResp cfg tc pkt s).1 = true ∧
    (reqRecvTimingResp cfg tc pkt s).2.rspTransmitList = s.rspTransmitList ++
      [⟨stripDelays pkt,
        clockEdgeLat cfg tc cfg.protoProcLat
          + (pkt.headerDelay + pkt.payloadDelay), tc.now⟩] ∧
    (reqRecvTimingResp cfg tc pkt s).2.reqTransmitList = s.reqTransmitList ∧
    (reqRecvTimingResp cfg tc pkt s).2.outstandingResponses
      = s.outstandingResponses ∧
    (reqRecvTimingResp cfg tc pkt s).2.retryReq = s.retryReq ∧
    (reqRecvTimingResp cfg tc pkt s).2.preRspTick = (tc.edge : Int) ∧
    (reqRecvTimingResp cfg tc pkt s).2.stats.memToCXLCtrlRsp =
      (if s.preRspTick = -1 then s.stats.memToCXLCtrlRsp
       else sampleDist s.stats.memToCXLCtrlRsp
         (ticksToCycles cfg ((tc.edge : Int) - s.preRspTick).toNat)) ∧
    (reqRecvTimingResp cfg tc pkt s).2.stats.reqQueFullEvents
      = s.stats.reqQueFullEvents ∧
    (reqRecvTimingResp cfg tc pkt s).2.rspEventLog = s.rspEventLog ++
      (if s.rspTransmitList.isEmpty then
        [clockEdgeLat cfg tc cfg.protoProcLat
          + (pkt.headerDelay + pkt.payloadDelay)] else []) := by
  unfold reqRecvTimingResp schedTimingResp
  by_cases hpre : s.preRspTick = -1 <;>
    by_cases hemp : s.rspTransmitList.isEmpty <;>
      simp [hpre, hemp]

lemma startNMPExecution_protocol (startPC stackPtr curCycle : Nat)
    (s : CXLMemoryState) :
    (startNMPExecution startPC stackPtr curCycle s).reqTransmitList
      = s.reqTransmitList ∧
    (startNMPExecution startPC stackPtr curCycle s).rspTransmitList
      = s.rspTransmitList ∧
    (startNMPExecution startPC stackPtr curCycle s).outstandingResponses
      = s.outstandingResponses ∧
    (startNMPExecution startPC stackPtr curCycle s).retryReq = s.retryReq ∧
    (startNMPExecution startPC stackPtr curCycle s).stats = s.stats := by
  unfold startNMPExecution
  rcases h3 : s.nmpTC with _ | ctx <;>
    by_cases h1 : s.enableNMP <;>
      by_cases h2 : s.nmpCPU <;>
        simp [h1, h2, h3]
  split <;> simp

lemma handleNMPMemoryAccess_protocol (acc : Bool) (pkt : Packet)
    (s : CXLMemoryState) :
    (handleNMPMemoryAccess acc pkt s).2.reqTransmitList = s.reqTransmitList ∧
    (handleNMPMemoryAccess acc pkt s).2.rspTransmitList = s.rspTransmitList ∧
    (handleNMPMemoryAccess acc pkt s).2.outstandingResponses
      = s.outstandingResponses ∧
    (handleNMPMemoryAccess acc pkt s).2.retryReq = s.retryReq ∧
    (handleNMPMemoryAccess acc pkt s).2.stats = s.stats := by
  unfold handleNMPMemoryAccess
  by_cases h : s.enableNMP <;> simp [h]

lemma nmpRecvTimingResp_protocol (now : Nat) (pkt : Packet)
    (s : CXLMemoryState) :
    (nmpRecvTimingResp now pkt s).2.reqTransmitList = s.reqTransmitList ∧
    (nmpRecvTimingResp now pkt s).2.rspTransmitList = s.rspTransmitList ∧
    (nmpRecvTimingResp now pkt s).2.outstandingResponses
      = s.outstandingResponses ∧
    (nmpRecvTimingResp now pkt s).2.retryReq = s.retryReq ∧
    (nmpRecvTimingResp now pkt s).2.stats = s.stats := by
  unfold nmpRecvTimingResp
  cases pkt.op <;> by_cases h : s.nmpCPU <;> simp [h]

lemma inv_recvReq (cfg : CXLConfig) (tc : TimeCtx) (pkt : Packet) (b : Bool)
    (s s' : CXLMemoryState) (fl : Nat) (hcr : pkt.cacheResponding = false)
    (hres : recvTimingReq cfg tc pkt s = some (b, s'))
    (hinv : Inv cfg s fl) : Inv cfg s' fl := by
  obtain ⟨h1, h2, h3⟩ := hinv
  cases hr : s.retryReq with
  | true =>
    rw [recvTimingReq_retry_set cfg tc pkt s hcr hr] at hres
    obtain ⟨-, rfl⟩ : b = false ∧ s = s' := by simpa using hres
    exact ⟨h1, h2, h3⟩
  | false =>
    by_cases hf : s.reqTransmitList.length = cfg.reqQueueLimit
    · rw [recvTimingReq_req_full cfg tc pkt s hcr hr hf] at hres
      obtain ⟨-, rfl⟩ : b = false ∧ _ = s' := by simpa using hres
      exact ⟨h1, h2, h3⟩
    · cases hresp : pkt.needsResponse with
      | true =>
        by_cases hof : s.outstandingResponses = cfg.respQueueLimit
        · rw [recvTimingReq_rsp_full cfg tc pkt s hcr hr hf hresp hof] at hres
          obtain ⟨-, rfl⟩ : b = false ∧ _ = s' := by simpa using hres
          exact ⟨h1, h2, h3⟩
        · rw [recvTimingReq_accept_resp cfg tc pkt s hcr hr hf hresp hof] at hres
          obtain ⟨-, rfl⟩ : b = true ∧ _ = s' := by simpa using hres
          refine ⟨?_, ?_, ?_⟩ <;>
            simp [countResp_append, stripDelays_needsResponse, hresp]
          · omega
          · omega
          · rw [h3]; ring
      | false =>
        rw [recvTimingReq_accept_noresp cfg tc pkt s hcr hr hf hresp] at hres
        obtain ⟨-, rfl⟩ : b = true ∧ _ = s' := by simpa using hres
        refine ⟨?_, ?_, ?_⟩ <;>
          simp [countResp_append, stripDelays_needsResponse, hresp]
        · omega
        · exact h2
        · exact h3

lemma inv_reqSendOk (cfg : CXLConfig) (tc : TimeCtx) (dp : DeferredPacket)
    (rest : List DeferredPacket) (s s' : CXLMemoryState) (fl : Nat)
    (hq : s.reqTransmitList = dp :: rest)
    (hres : reqTrySendTiming cfg tc true s = some s')
    (hinv : Inv cfg s fl) :
    Inv cfg s' (fl + if dp.pkt.needsResponse then 1 else 0) := by
  obtain ⟨h1, h2, h3⟩ := hinv
  by_cases ht : tc.now < dp.tick
  · exfalso
    unfold reqTrySendTiming at hres
    simp [hq, ht] at hres
  · rw [reqTrySendTiming_ok cfg tc dp rest s hq (Nat.not_lt.mp ht)] at hres
    obtain rfl : _ = s' := by simpa using hres
    rw [retryStalledReq_spec]
    rw [hq] at h1 h3
    rw [countResp_cons] at h3
    refine ⟨?_, ?_, ?_⟩ <;> simp
    · simp at h1; omega
    · exact h2
    · by_cases hn : dp.pkt.needsResponse <;> simp [hn] at h3 ⊢ <;> omega

lemma inv_reqSendFail (cfg : CXLConfig) (tc : TimeCtx)
    (s s' : CXLMemoryState) (fl : Nat)
    (hres : reqTrySendTiming cfg tc false s = some s')
    (hinv : Inv cfg s fl) : Inv cfg s' fl := by
  obtain ⟨h1, h2, h3⟩ := hinv
  cases hql : s.reqTransmitList with
  | nil =>
    exfalso
    unfold reqTrySendTiming at hres
    simp [hql] at hres
  | cons dp rest =>
    by_cases ht : tc.now < dp.tick
    · exfalso
      unfold reqTrySendTiming at hres
      simp [hql, ht] at hres
    · rw [reqTrySendTiming_fail cfg tc dp rest s hql (Nat.not_lt.mp ht)] at hres
      obtain rfl : _ = s' := by simpa using hres
      exact ⟨h1, h2, h3⟩

lemma inv_backendResp (cfg : CXLConfig) (tc : TimeCtx) (pkt : Packet) (b : Bool)
    (s s' : CXLMemoryState) (fl : Nat)
    (hres : reqRecvTimingResp cfg tc pkt s = (b, s'))
    (hinv : Inv cfg s (fl + 1)) : Inv cfg s' fl := by
  obtain ⟨h1, h2, h3⟩ := hinv
  obtain ⟨-, he1, he2, he3, -, -, -, -, -⟩ := reqRecvTimingResp_fields cfg tc pkt s
  have hs' : (reqRecvTimingResp cfg tc pkt s).2 = s' := by rw [hres]
  rw [hs'] at he1 he2 he3
  refine ⟨?_, ?_, ?_⟩
  · rw [he2]; exact h1
  · rw [he3]; exact h2
  · rw [he3, he2, he1]
    simp [List.length_append]
    omega

lemma inv_rspSend (cfg : CXLConfig) (tc : TimeCtx) (ok : Bool)
    (s s' : CXLMemoryState) (fl : Nat)
    (hres : rspTrySendTiming cfg tc ok s = some s')
    (hinv : Inv cfg s fl) : Inv cfg s' fl := by
  obtain ⟨h1, h2, h3⟩ := hinv
  cases hql : s.rspTransmitList with
  | nil =>
    exfalso
    unfold rspTrySendTiming at hres
    simp [hql] at hres
  | cons dp rest =>
    by_cases ht : tc.now < dp.tick
    · exfalso
      unfold rspTrySendTiming at hres
      simp [hql, ht] at hres
    · cases ok with
      | false =>
        rw [rspTrySendTiming_fail cfg tc dp rest s hql (Nat.not_lt.mp ht)] at hres
        obtain rfl : _ = s' := by simpa using hres
        exact ⟨h1, h2, h3⟩
      | true =>
        by_cases ho : s.outstandingResponses = 0
        · exfalso
          rw [hql] at h3
          simp [List.length_cons] at h3
          omega
        · obtain ⟨s'', heq, hf1, hf2, hf3, -⟩ :=
            rspTrySendTiming_ok_fields cfg tc dp rest s hql (Nat.not_lt.mp ht) ho
          rw [hres] at heq
          obtain rfl : s'' = s' := by simpa using heq.symm
          rw [hql] at h3
          refine ⟨?_, ?_, ?_⟩
          · rw [hf2]; exact h1
          · rw [hf3]; omega
          · rw [hf3, hf2, hf1]
            simp [List.length_cons] at h3 ⊢
            omega

lemma inv_step (cfg : CXLConfig) (a b : CXLMemoryState × Nat)
    (hstep : Step cfg a b) (hinv : Inv cfg a.1 a.2) : Inv cfg b.1 b.2 := by
  cases hstep with
  | recvReq tc pkt bb s s' fl hcr hres =>
    exact inv_recvReq cfg tc pkt bb s s' fl hcr hres hinv
  | reqSendOk tc dp rest s s' fl hq hres =>
    exact inv_reqSendOk cfg tc dp rest s s' fl hq hres hinv
  | reqSendFail tc s s' fl hres =>
    exact inv_reqSendFail cfg tc s s' fl hres hinv
  | backendResp tc pkt bb s s' fl hres =>
    exact inv_backendResp cfg tc pkt bb s s' fl hres hinv
  | rspSend tc ok s s' fl hres =>
    exact inv_rspSend cfg tc ok s s' fl hres hinv
  | startNMP startPC stackPtr curCycle s fl =>
    obtain ⟨e1, e2, e3, -, -⟩ := startNMPExecution_protocol startPC stackPtr curCycle s
    obtain ⟨h1, h2, h3⟩ := hinv
    exact ⟨by rw [e1]; exact h1, by rw [e3]; exact h2, by rw [e3, e1, e2]; exact h3⟩
  | nmpAccess acc pkt s fl =>
    obtain ⟨e1, e2, e3, -, -⟩ := handleNMPMemoryAccess_protocol acc pkt s
    obtain ⟨h1, h2, h3⟩ := hinv
    exact ⟨by rw [e1]; exact h1, by rw [e3]; exact h2, by rw [e3, e1, e2]; exact h3⟩
  | nmpResp now pkt s fl =>
    obtain ⟨e1, e2, e3, -, -⟩ := nmpRecvTimingResp_protocol now pkt s
    obtain ⟨h1, h2, h3⟩ := hinv
    exact ⟨by rw [e1]; exact h1, by rw [e3]; exact h2, by rw [e3, e1, e2]; exact h3⟩
  | attachNMP cpu tcOpt s fl =>
    obtain ⟨h1, h2, h3⟩ := hinv
    exact ⟨h1, h2, h3⟩

lemma reachable_inv (cfg : CXLConfig) (x : CXLMemoryState × Nat)
    (h : Reachable cfg x) : Inv cfg x.1 x.2 := by
  obtain ⟨en, h⟩ := h
  induction h with
  | refl => simp [Inv, initState, countResp]
  | tail hsteps hstep ih => exact inv_step cfg _ _ hstep ih

/-- Example configuration: request queue limit 2, response slot limit 2,
one cycle of protocol processing latency, clock period 1 tick. -/
def cfgEx : CXLConfig := ⟨2, 2, 1, 1⟩

/-- Example configuration with both limits 1. -/
def cfgC4 : CXLConfig := ⟨1, 1, 1, 1⟩

/-- A read request that expects a response, with pre-accounted transit
delays 3 + 4 ticks. -/
def pktReadResp : Packet := ⟨MemOp.read, 4096, 64, true, false, 3, 4, 50⟩

/-- A write request that expects no response and carries no transit delay. -/
def pktWriteNoResp : Packet := ⟨MemOp.write, 4096, 64, false, false, 0, 0, 50⟩

/-- A freshly constructed device holding one deferred request entry. -/
def sOneReq : CXLMemoryState :=
  { initState false with reqTransmitList := [⟨pktWriteNoResp, 10, 5⟩] }

/-- Claim C1: admission contract of `CXLResponsePort::recvTimingReq`.  If the
retry flag is already set the packet is rejected with no other state change;
else a full egress request queue sets the flag and rejects; else a
response-expecting packet with `outstandingResponses` at the response limit
sets the flag and rejects, and below the limit the counter is incremented
and its new value sampled; every non-rejected packet is enqueued into the
egress queue at `clockEdge(protoProcLat) + stripped transit delay`; the call
returns `true` exactly when the packet was enqueued. -/
theorem recvTimingReq_admission_contract (cfg : CXLConfig) (tc : TimeCtx)
    (pkt : Packet) (s : CXLMemoryState) (hcr : pkt.cacheResponding = false) :
    (s.retryReq = true → recvTimingReq cfg tc pkt s = some (false, s)) ∧
    (s.retryReq = false → s.reqTransmitList.length = cfg.reqQueueLimit →
      ∃ s', recvTimingReq cfg tc pkt s = some (false, s') ∧
        s'.retryReq = true ∧
        s'.reqTransmitList = s.reqTransmitList ∧
        s'.outstandingResponses = s.outstandingResponses) ∧
    (s.retryReq = false → s.reqTransmitList.length ≠ cfg.reqQueueLimit →
      pkt.needsResponse = true →
      s.outstandingResponses = cfg.respQueueLimit →
      ∃ s', recvTimingReq cfg tc pkt s = some (false, s') ∧
        s'.retryReq = true ∧
        s'.reqTransmitList = s.reqTransmitList ∧
        s'.outstandingResponses = s.outstandingResponses) ∧
    (s.retryReq = false → s.reqTransmitList.length ≠ cfg.reqQueueLimit →
      pkt.needsResponse = true →
      s.outstandingResponses ≠ cfg.respQueueLimit →
      ∃ s', recvTimingReq cfg tc pkt s = some (true, s') ∧
        s'.outstandingResponses = s.outstandingResponses + 1 ∧
        s'.stats.rspOutStandDist
          = sampleDist s.stats.rspOutStandDist (s.outstandingResponses + 1) ∧
        s'.reqTransmitList = s.reqTransmitList ++
          [⟨stripDelays pkt,
            clockEdgeLat cfg tc cfg.protoProcLat
              + (pkt.headerDelay + pkt.payloadDelay), tc.now⟩] ∧
        s'.retryReq = false) ∧
    (s.retryReq = false → s.reqTransmitList.length ≠ cfg.reqQueueLimit →
      pkt.needsResponse = false →
      ∃ s', recvTimingReq cfg tc pkt s = some (true, s') ∧
        s'.outstandingResponses = s.outstandingResponses ∧
        s'.reqTransmitList = s.reqTransmitList ++
          [⟨stripDelays pkt,
            clockEdgeLat cfg tc cfg.protoProcLat
              + (pkt.headerDelay + pkt.payloadDelay), tc.now⟩] ∧
        s'.retryReq = false) ∧
    (∀ b s', recvTimingReq cfg tc pkt s = some (b, s') →
      (b = true ↔ s'.reqTransmitList = s.reqTransmitList ++
        [⟨stripDelays pkt,
          clockEdgeLat cfg tc cfg.protoProcLat
            + (pkt.headerDelay + pkt.payloadDelay), tc.now⟩])) := by
  refine ⟨?_, ?_, ?_, ?_, ?_, ?_⟩
  · intro hr
    exact recvTimingReq_retry_set cfg tc pkt s hcr hr
  · intro hr hf
    rw [recvTimingReq_req_full cfg tc pkt s hcr hr hf]
    exact ⟨_, rfl, by simp, by simp, by simp⟩
  · intro hr hf hresp hof
    rw [recvTimingReq_rsp_full cfg tc pkt s hcr hr hf hresp hof]
    exact ⟨_, rfl, by simp, by simp, by simp⟩
  · intro hr hf hresp hno
    rw [recvTimingReq_accept_resp cfg tc pkt s hcr hr hf hresp hno]
    exact ⟨_, rfl, by simp, by simp, by simp, by simp [hr]⟩
  · intro hr hf hresp
    rw [recvTimingReq_accept_noresp cfg tc pkt s hcr hr hf hresp]
    exact ⟨_, rfl, by simp, by simp, by simp [hr]⟩
  · intro b s' hres
    cases hr : s.retryReq with
    | true =>
      rw [recvTimingReq_retry_set cfg tc pkt s hcr hr] at hres
      obtain ⟨rfl, rfl⟩ : false = b ∧ s = s' := by simpa using hres
      simp
    | false =>
      by_cases hf : s.reqTransmitList.length = cfg.reqQueueLimit
      · rw [recvTimingReq_req_full cfg tc pkt s hcr hr hf] at hres
        obtain ⟨rfl, rfl⟩ : false = b ∧ _ = s' := by simpa using hres
        simp
      · cases hresp : pkt.needsResponse with
        | true =>
          by_cases hof : s.outstandingResponses = cfg.respQueueLimit
          · rw [recvTimingReq_rsp_full cfg tc pkt s hcr hr hf hresp hof] at hres
            obtain ⟨rfl, rfl⟩ : false = b ∧ _ = s' := by simpa using hres
            simp
          · rw [recvTimingReq_accept_resp cfg tc pkt s hcr hr hf hresp hof] at hres
            obtain ⟨rfl, rfl⟩ : true = b ∧ _ = s' := by simpa using hres
            simp
        | false =>
          rw [recvTimingReq_accept_noresp cfg tc pkt s hcr hr hf hresp] at hres
          obtain ⟨rfl, rfl⟩ : true = b ∧ _ = s' := by simpa using hres
          simp

/-- Witness for C1: on the fresh device a response-expecting read is
admitted, reserving one response slot. -/
theorem recvTimingReq_admission_contract_witness :
    ∃ s', recvTimingReq cfgEx ⟨100, 100⟩ pktReadResp (initState false)
        = some (true, s') ∧
      s'.outstandingResponses = 1 ∧
      s'.reqTransmitList = [⟨stripDelays pktReadResp, 108, 100⟩] := by
  obtain ⟨-, -, -, h4, -, -⟩ :=
    recvTimingReq_admission_contract cfgEx ⟨100, 100⟩ pktReadResp
      (initState false) rfl
  obtain ⟨s', heq, hout, -, hq, -⟩ := h4 rfl (by decide) rfl (by decide)
  refine ⟨s', heq, by rw [hout]; rfl, by rw [hq]; decide⟩

/-- Claim C2: in every reachable device state the egress request queue
length is at most the request queue limit and `outstandingResponses` is at
most the response limit; moreover an admission attempt on a non-aborting
packet never trips an assertion (in particular `schedTimingReq`'s
capacity assertion), and a due response-send attempt never trips the
`outstandingResponses != 0` assertion. -/
theorem reachable_queue_invariants (cfg : CXLConfig) (s : CXLMemoryState)
    (fl : Nat) (h : Reachable cfg (s, fl)) :
    s.reqTransmitList.length ≤ cfg.reqQueueLimit ∧
    s.outstandingResponses ≤ cfg.respQueueLimit ∧
    (∀ tc pkt, pkt.cacheResponding = false →
      (recvTimingReq cfg tc pkt s).isSome) ∧
    (∀ tc (dp : DeferredPacket) rest, s.rspTransmitList = dp :: rest →
      dp.tick ≤ tc.now → ∀ ok, (rspTrySendTiming cfg tc ok s).isSome) := by
  obtain ⟨h1, h2, h3⟩ := reachable_inv cfg (s, fl) h
  refine ⟨h1, h2, ?_, ?_⟩
  · intro tc pkt hcr
    exact recvTimingReq_isSome cfg tc pkt s hcr
  · intro tc dp rest hq ht ok
    cases ok with
    | false =>
      rw [rspTrySendTiming_fail cfg tc dp rest s hq ht]
      simp
    | true =>
      have ho : s.outstandingResponses ≠ 0 := by
        rw [hq] at h3
        simp at h3
        omega
      obtain ⟨s', heq, -⟩ := rspTrySendTiming_ok_fields cfg tc dp rest s hq ht ho
      rw [heq]
      simp

/-- Witness for C2 at the freshly constructed device (reachable by the
empty trace). -/
theorem reachable_queue_invariants_witness :
    (initState false).reqTransmitList.length ≤ cfgEx.reqQueueLimit ∧
    (initState false).outstandingResponses ≤ cfgEx.respQueueLimit ∧
    (∀ tc pkt, pkt.cacheResponding = false →
      (recvTimingReq cfgEx tc pkt (initState false)).isSome) ∧
    (∀ tc (dp : DeferredPacket) rest,
      (initState false).rspTransmitList = dp :: rest →
      dp.tick ≤ tc.now → ∀ ok,
      (rspTrySendTiming cfgEx tc ok (initState false)).isSome) :=
  reachable_queue_invariants cfgEx (initState false) 0
    ⟨false, Relation.ReflTransGen.refl⟩

/-- Claim C3: `CXLRequestPort::trySendTiming` on a due head entry.  On
successful delivery it counts the success, samples the queue-wait latency,
pops the entry, samples the new queue length, re-arms the timer at
`max(next entry tick, clock edge)` exactly when entries remain, and invokes
`retryStalledReq` unconditionally (the flag ends clear; a retry is signalled
and counted exactly when the flag was set).  On failed delivery it only
increments the send-failed counter. -/
theorem reqTrySendTiming_contract (cfg : CXLConfig) (tc : TimeCtx)
    (dp : DeferredPacket) (rest : List DeferredPacket) (s : CXLMemoryState)
    (hq : s.reqTransmitList = dp :: rest) (ht : dp.tick ≤ tc.now) :
    (∃ s', reqTrySendTiming cfg tc true s = some s' ∧
      s'.stats.reqSendSucceed = s.stats.reqSendSucceed + 1 ∧
      s'.stats.reqQueueLatDist
        = sampleDist s.stats.reqQueueLatDist (tc.now - dp.entryTime) ∧
      s'.reqTransmitList = rest ∧
      s'.stats.reqQueueLenDist
        = sampleDist s.stats.reqQueueLenDist rest.length ∧
      s'.reqEventLog = s.reqEventLog ++
        (match rest with
         | [] => []
         | next :: _ => [max next.tick tc.edge]) ∧
      s'.retryReq = false ∧
      s'.retrySignals = s.retrySignals + (if s.retryReq then 1 else 0) ∧
      s'.stats.reqRetryCounts
        = s.stats.reqRetryCounts + (if s.retryReq then 1 else 0)) ∧
    reqTrySendTiming cfg tc false s = some
      { s with stats := { s.stats with
          reqSendFaild := s.stats.reqSendFaild + 1 } } := by
  constructor
  · rw [reqTrySendTiming_ok cfg tc dp rest s hq ht, retryStalledReq_spec]
    cases rest <;>
      exact ⟨_, rfl, by simp, by simp, by simp, by simp, by simp, by simp,
        by simp, by simp⟩
  · exact reqTrySendTiming_fail cfg tc dp rest s hq ht

/-- Witness for C3: one queued entry, successful delivery pops it and
counts one success; failed delivery only counts one failure. -/
theorem reqTrySendTiming_contract_witness :
    ∃ s', reqTrySendTiming cfgEx ⟨100, 100⟩ true sOneReq = some s' ∧
      s'.stats.reqSendSucceed = sOneReq.stats.reqSendSucceed + 1 ∧
      s'.reqTransmitList = [] := by
  obtain ⟨⟨s', heq, hsucc, -, hq, -⟩, -⟩ :=
    reqTrySendTiming_contract cfgEx ⟨100, 100⟩ ⟨pktWriteNoResp, 10, 5⟩ []
      sOneReq rfl (by decide)
  exact ⟨s', heq, hsucc, hq⟩

/-- Device state after admitting a response-expecting read at time 0 under
`cfgC4`. -/
def c4s1 : CXLMemoryState :=
  ((recvTimingReq cfgC4 ⟨0, 0⟩ pktReadResp (initState false)).getD
    (false, initState false)).2

/-- State after the queued request is successfully forwarded to the
backend at time 10. -/
def c4s2 : CXLMemoryState :=
  (reqTrySendTiming cfgC4 ⟨10, 10⟩ true c4s1).getD (initState false)

/-- State after the backend completion arrives at time 20. -/
def c4s3 : CXLMemoryState :=
  (reqRecvTimingResp cfgC4 ⟨20, 20⟩ pktReadResp c4s2).2

/-- State after a further (no-response) write is admitted at time 30,
filling the request queue to its limit while a response is still queued. -/
def c4s4 : CXLMemoryState :=
  ((recvTimingReq cfgC4 ⟨30, 30⟩ pktWriteNoResp c4s3).getD
    (false, initState false)).2

/-- Claim C4 counterexample: in the reachable state `c4s4` the request
queue is at its limit and a successful response-side send — not an
admission attempt — increments `reqQueFullEvents`, because
`CXLResponsePort::trySendTiming` evaluates `reqQueueFull()` (whose check
counts full events) unconditionally as the left operand of its retry
condition. -/
theorem reqQueFullEvents_nonadmission_increment :
    Reachable cfgC4 (c4s4, 0) ∧
    c4s4.reqTransmitList.length = cfgC4.reqQueueLimit ∧
    c4s4.stats.reqQueFullEvents = 0 ∧
    (rspTrySendTiming cfgC4 ⟨100, 100⟩ true c4s4).map
      (fun s' => s'.stats.reqQueFullEvents) = some 1 := by
  refine ⟨⟨false, ?_⟩, by decide, by decide, by decide⟩
  exact Relation.ReflTransGen.tail
    (Relation.ReflTransGen.tail
      (Relation.ReflTransGen.tail
        (Relation.ReflTransGen.tail Relation.ReflTransGen.refl
          (Step.recvReq ⟨0, 0⟩ pktReadResp true (initState false) c4s1 0
            rfl (by decide)))
        (Step.reqSendOk ⟨10, 10⟩ ⟨stripDelays pktReadResp, 8, 0⟩ [] c4s1 c4s2 0
          (by decide) (by decide)))
      (Step.backendResp ⟨20, 20⟩ pktReadResp true c4s2 c4s3 0 (by decide)))
    (Step.recvReq ⟨30, 30⟩ pktWriteNoResp true c4s3 c4s4 0 rfl (by decide))

/-- Claim C4 (amended): `reqQueFullEvents` is incremented exactly once by
each admission attempt rejected because the egress queue is at its limit,
never by any other admission outcome, by request-side send attempts, by
backend completions, by `retryStalledReq`, or by the NMP operations — but
it is also incremented once by each successful response-side send performed
while the request queue is at its limit (the unconditional capacity check
in `CXLResponsePort::trySendTiming`). -/
theorem reqQueFullEvents_characterization (cfg : CXLConfig) (tc : TimeCtx)
    (pkt : Packet) (s : CXLMemoryState) (hcr : pkt.cacheResponding = false) :
    (∀ b s', recvTimingReq cfg tc pkt s = some (b, s') →
      s'.stats.reqQueFullEvents = s.stats.reqQueFullEvents +
        (if s.retryReq = false ∧ s.reqTransmitList.length = cfg.reqQueueLimit
         then 1 else 0) ∧
      (s.retryReq = false → s.reqTransmitList.length = cfg.reqQueueLimit →
        b = false)) ∧
    (∀ (dp : DeferredPacket) rest, s.rspTransmitList = dp :: rest →
      dp.tick ≤ tc.now → s.outstandingResponses ≠ 0 →
      ∃ s', rspTrySendTiming cfg tc true s = some s' ∧
        s'.stats.reqQueFullEvents = s.stats.reqQueFullEvents +
          (if s.reqTransmitList.length = cfg.reqQueueLimit then 1 else 0)) ∧
    (∀ ok s', reqTrySendTiming cfg tc ok s = some s' →
      s'.stats.reqQueFullEvents = s.stats.reqQueFullEvents) ∧
    (∀ s', rspTrySendTiming cfg tc false s = some s' →
      s'.stats.reqQueFullEvents = s.stats.reqQueFullEvents) ∧
    ((reqRecvTimingResp cfg tc pkt s).2.stats.reqQueFullEvents
      = s.stats.reqQueFullEvents) ∧
    ((retryStalledReq s).stats.reqQueFullEvents = s.stats.reqQueFullEvents) ∧
    (∀ a b c, (startNMPExecution a b c s).stats = s.stats) ∧
    (∀ acc, (handleNMPMemoryAccess acc pkt s).2.stats = s.stats) ∧
    (∀ now, (nmpRecvTimingResp now pkt s).2.stats = s.stats) := by
  refine ⟨?_, ?_, ?_, ?_, ?_, ?_, ?_, ?_, ?_⟩
  · intro b s' hres
    cases hr : s.retryReq with
    | true =>
      rw [recvTimingReq_retry_set cfg tc pkt s hcr hr] at hres
      obtain ⟨rfl, rfl⟩ : false = b ∧ s = s' := by simpa using hres
      simp [hr]
    | false =>
      by_cases hf : s.reqTransmitList.length = cfg.reqQueueLimit
      · rw [recvTimingReq_req_full cfg tc pkt s hcr hr hf] at hres
        obtain ⟨rfl, rfl⟩ : false = b ∧ _ = s' := by simpa using hres
        simp [hr, hf]
      · cases hresp : pkt.needsResponse with
        | true =>
          by_cases hof : s.outstandingResponses = cfg.respQueueLimit
          · rw [recvTimingReq_rsp_full cfg tc pkt s hcr hr hf hresp hof] at hres
            obtain ⟨rfl, rfl⟩ : false = b ∧ _ = s' := by simpa using hres
            simp [hf]
          · rw [recvTimingReq_accept_resp cfg tc pkt s hcr hr hf hresp hof]
              at hres
            obtain ⟨rfl, rfl⟩ : true = b ∧ _ = s' := by simpa using hres
            simp [hf]
        | false =>
          rw [recvTimingReq_accept_noresp cfg tc pkt s hcr hr hf hresp] at hres
          obtain ⟨rfl, rfl⟩ : true = b ∧ _ = s' := by simpa using hres
          simp [hf]
  · intro dp rest hq ht ho
    obtain ⟨s', heq, -, -, -, hcnt⟩ :=
      rspTrySendTiming_ok_fields cfg tc dp rest s hq ht ho
    exact ⟨s', heq, hcnt⟩
  · intro ok s' hres
    cases hql : s.reqTransmitList with
    | nil =>
      exfalso
      unfold reqTrySendTiming at hres
      simp [hql] at hres
    | cons dp rest =>
      by_cases ht : tc.now < dp.tick
      · exfalso
        unfold reqTrySendTiming at hres
        simp [hql, ht] at hres
      · cases ok with
        | true =>
          rw [reqTrySendTiming_ok cfg tc dp rest s hql (Nat.not_lt.mp ht),
            retryStalledReq_spec] at hres
          obtain rfl : _ = s' := by simpa using hres
          simp
        | false =>
          rw [reqTrySendTiming_fail cfg tc dp rest s hql (Nat.not_lt.mp ht)]
            at hres
          obtain rfl : _ = s' := by simpa using hres
          simp
  · intro s' hres
    cases hql : s.rspTransmitList with
    | nil =>
      exfalso
      unfold rspTrySendTiming at hres
      simp [hql] at hres
    | cons dp rest =>
      by_cases ht : tc.now < dp.tick
      · exfalso
        unfold rspTrySendTiming at hres
        simp [hql, ht] at hres
      · rw [rspTrySendTiming_fail cfg tc dp rest s hql (Nat.not_lt.mp ht)]
          at hres
        obtain rfl : _ = s' := by simpa using hres
        simp
  · exact (reqRecvTimingResp_fields cfg tc pkt s).2.2.2.2.2.2.2.1
  · rw [retryStalledReq_spec]
  · intro a b c
    exact (startNMPExecution_protocol a b c s).2.2.2.2
  · intro acc
    exact (handleNMPMemoryAccess_protocol acc pkt s).2.2.2.2
  · intro now
    exact (nmpRecvTimingResp_protocol now pkt s).2.2.2.2

/-- Witness for C4's amended characterization: `retryStalledReq` on the
fresh device leaves the queue-full counter untouched. -/
theorem reqQueFullEvents_characterization_witness :
    (retryStalledReq (initState false)).stats.reqQueFullEvents
      = (initState false).stats.reqQueFullEvents :=
  (reqQueFullEvents_characterization cfgEx ⟨100, 100⟩ pktWriteNoResp
    (initState false) rfl).2.2.2.2.2.1

/-- Claim C5 (amended): every backend completion is stripped of its transit
delay and enqueued toward the remote side with scheduled time
`clockEdge(protoProcLat)` plus the stripped transit delay, and the receive
call returns `true`. -/
theorem reqRecvTimingResp_enqueue_contract (cfg : CXLConfig) (tc : TimeCtx)
    (pkt : Packet) (s : CXLMemoryState) :
    (reqRecvTimingResp cfg tc pkt s).1 = true ∧
    (reqRecvTimingResp cfg tc pkt s).2.rspTransmitList = s.rspTransmitList ++
      [⟨stripDelays pkt,
        clockEdgeLat cfg tc cfg.protoProcLat
          + (pkt.headerDelay + pkt.payloadDelay), tc.now⟩] := by
  obtain ⟨a, b, -⟩ := reqRecvTimingResp_fields cfg tc pkt s
  exact ⟨a, b⟩

/-- Claim C5 counterexample: a completion carrying transit delay 3 + 4 at
time 50 is scheduled at tick 58, not at `now + protocol_processing_delay`
= 51 as the claim states. -/
theorem rspEnqueueTime_includes_transit_delay_cex :
    ((reqRecvTimingResp cfgEx ⟨50, 50⟩ pktReadResp
        (initState false)).2.rspTransmitList.map (fun e => e.tick)) = [58] ∧
    (58 : Nat) ≠ 50 + cfgEx.protoProcLat * cfgEx.clockPeriod := by
  decide

/-- Claim C6 (code bug): `preRspTick` is initialised to `0`, not to the
sentinel `-1` that the skip-first-sample branch in
`CXLRequestPort::recvTimingResp` tests for, so the very first backend
completion of a run — which has no predecessor — samples its absolute
arrival edge (here 100) into the inter-completion distribution instead of
contributing no sample. -/
theorem first_completion_sampled_interval :
    (initState false).preRspTick = 0 ∧
    (initState false).preRspTick ≠ -1 ∧
    (initState false).stats.memToCXLCtrlRsp = [] ∧
    (reqRecvTimingResp cfgEx ⟨100, 100⟩ pktWriteNoResp
      (initState false)).2.stats.memToCXLCtrlRsp = [100] := by
  decide

lemma startNMPExecution_run (s : CXLMemoryState) (ctx : ThreadCtx)
    (startPC stackPtr curCycle : Nat) (h1 : s.enableNMP = true)
    (h2 : s.nmpCPU = true) (h3 : s.nmpTC = some ctx) :
    startNMPExecution startPC stackPtr curCycle s =
      { s with
        nmpTC := some ⟨startPC, TCStatus.Active⟩,
        activateLog := s.activateLog
          + (if ctx.status = TCStatus.Active then 0 else 1),
        nmpStats := { s.nmpStats with
          nmpExecutions := s.nmpStats.nmpExecutions + 1,
          nmpActiveCycles := curCycle } } := by
  unfold startNMPExecution
  by_cases hst : ctx.status = TCStatus.Active <;> simp [h1, h2, h3, hst]

lemma startNMPExecution_noop (s : CXLMemoryState) (startPC stackPtr curCycle : Nat)
    (h : s.enableNMP = false ∨ s.nmpCPU = false ∨ s.nmpTC = none) :
    startNMPExecution startPC stackPtr curCycle s = s := by
  unfold startNMPExecution
  rcases h with h | h | h
  · simp [h]
  · by_cases h1 : s.enableNMP <;> simp [h1, h]
  · by_cases h1 : s.enableNMP <;> by_cases h2 : s.nmpCPU <;> simp [h1, h2, h]

/-- Claim C7: `CXLMemory::startNMPExecution`.  With NMP enabled, a CPU
handle attached and a thread context acquired, each call increments the
execution counter by exactly one (a repeated call increments it again),
sets the context's program counter to the entry point, activates the
context only when it was not already active (the context ends active either
way), and records the given current cycle as the active-cycle baseline;
with NMP disabled, no handle, or no context, the call leaves the state
unchanged (a warning only). -/
theorem startNMPExecution_contract (s : CXLMemoryState)
    (startPC stackPtr curCycle startPC2 stackPtr2 curCycle2 : Nat) :
    (∀ ctx : ThreadCtx, s.enableNMP = true → s.nmpCPU = true →
      s.nmpTC = some ctx →
      (startNMPExecution startPC stackPtr curCycle s).nmpStats.nmpExecutions
        = s.nmpStats.nmpExecutions + 1 ∧
      (startNMPExecution startPC2 stackPtr2 curCycle2
          (startNMPExecution startPC stackPtr curCycle s)).nmpStats.nmpExecutions
        = s.nmpStats.nmpExecutions + 2 ∧
      (startNMPExecution startPC stackPtr curCycle s).nmpTC
        = some ⟨startPC, TCStatus.Active⟩ ∧
      (startNMPExecution startPC stackPtr curCycle s).activateLog
        = s.activateLog + (if ctx.status = TCStatus.Active then 0 else 1) ∧
      (startNMPExecution startPC stackPtr curCycle s).nmpStats.nmpActiveCycles
        = curCycle) ∧
    ((s.enableNMP = false ∨ s.nmpCPU = false ∨ s.nmpTC = none) →
      startNMPExecution startPC stackPtr curCycle s = s) := by
  constructor
  · intro ctx h1 h2 h3
    rw [startNMPExecution_run s ctx startPC stackPtr curCycle h1 h2 h3]
    rw [startNMPExecution_run _ ⟨startPC, TCStatus.Active⟩ startPC2 stackPtr2
      curCycle2 (by simp [h1]) (by simp [h2]) (by simp)]
    refine ⟨by simp, by simp, by simp, by simp, by simp⟩
  · exact startNMPExecution_noop s startPC stackPtr curCycle

/-- A device with NMP enabled, a CPU handle attached and a suspended
thread context acquired. -/
def sNMP : CXLMemoryState :=
  { initState true with nmpCPU := true, nmpTC := some ⟨0, TCStatus.Suspended⟩ }

/-- Witness for C7 at Scenario D's inputs (`pc = 0x1000`, `sp = 0x2000`):
one call counts one execution and a repeated call counts a second. -/
theorem startNMPExecution_contract_witness :
    (startNMPExecution 4096 8192 7 sNMP).nmpStats.nmpExecutions
      = sNMP.nmpStats.nmpExecutions + 1 ∧
    (startNMPExecution 4096 8192 9
        (startNMPExecution 4096 8192 7 sNMP)).nmpStats.nmpExecutions
      = sNMP.nmpStats.nmpExecutions + 2 ∧
    (startNMPExecution 4096 8192 7 sNMP).nmpTC
      = some ⟨4096, TCStatus.Active⟩ := by
  obtain ⟨he1, he2, htc, -, -⟩ :=
    (startNMPExecution_contract sNMP 4096 8192 7 4096 8192 9).1
      ⟨0, TCStatus.Suspended⟩ rfl rfl rfl
  exact ⟨he1, he2, htc⟩

/-- Claim C8: `CXLMemory::handleNMPMemoryAccess`.  With NMP disabled it
returns `false` with the state untouched (no counter or queue changes);
with NMP enabled it forwards the packet directly to the backend connection
— bypassing the admission and queueing state, which is unchanged — and
returns exactly the backend's immediate answer, buffering nothing locally
on rejection. -/
theorem handleNMPMemoryAccess_contract (acc : Bool) (pkt : Packet)
    (s : CXLMemoryState) :
    (s.enableNMP = false → handleNMPMemoryAccess acc pkt s = (false, s)) ∧
    (s.enableNMP = true →
      handleNMPMemoryAccess acc pkt s
        = (acc, { s with nmpForwardLog := s.nmpForwardLog ++ [pkt] })) := by
  unfold handleNMPMemoryAccess
  constructor
  · intro h
    simp [h]
  · intro h
    simp [h]

/-- Witness for C8: with NMP disabled the access is rejected and the state
is unchanged; with NMP enabled and an accepting backend the packet is
forwarded and accepted. -/
theorem handleNMPMemoryAccess_contract_witness :
    handleNMPMemoryAccess true pktReadResp (initState false)
      = (false, initState false) ∧
    handleNMPMemoryAccess true pktReadResp sNMP
      = (true, { sNMP with nmpForwardLog := [pktReadResp] }) := by
  refine ⟨(handleNMPMemoryAccess_contract true pktReadResp
    (initState false)).1 rfl, ?_⟩
  have h := (handleNMPMemoryAccess_contract true pktReadResp sNMP).2 rfl
  rw [h]
  rfl

/-- Claim C9 (implicit): `NMPMemPort::recvTimingResp` samples the access
latency as `now - pkt.reqTime`, increments exactly one of the read/write
counters according to the packet's operation kind, returns `true`, behaves
identically whether or not a CPU handle is attached, and never delivers the
completion into the processing unit. -/
theorem nmpRecvTimingResp_contract (now : Nat) (pkt : Packet)
    (s : CXLMemoryState) :
    (nmpRecvTimingResp now pkt s).1 = true ∧
    (nmpRecvTimingResp now pkt s).2.nmpStats.nmpAccessLatency
      = sampleDist s.nmpStats.nmpAccessLatency (now - pkt.reqTime) ∧
    (pkt.op = MemOp.read →
      (nmpRecvTimingResp now pkt s).2.nmpStats.nmpMemReads
        = s.nmpStats.nmpMemReads + 1 ∧
      (nmpRecvTimingResp now pkt s).2.nmpStats.nmpMemWrites
        = s.nmpStats.nmpMemWrites) ∧
    (pkt.op = MemOp.write →
      (nmpRecvTimingResp now pkt s).2.nmpStats.nmpMemWrites
        = s.nmpStats.nmpMemWrites + 1 ∧
      (nmpRecvTimingResp now pkt s).2.nmpStats.nmpMemReads
        = s.nmpStats.nmpMemReads) ∧
    (∀ b : Bool, nmpRecvTimingResp now pkt { s with nmpCPU := b }
      = ((nmpRecvTimingResp now pkt s).1,
         { (nmpRecvTimingResp now pkt s).2 with nmpCPU := b })) ∧
    (nmpRecvTimingResp now pkt s).2.nmpDeliverLog = s.nmpDeliverLog := by
  unfold nmpRecvTimingResp
  cases hop : pkt.op <;>
    by_cases hc : s.nmpCPU <;>
      refine ⟨by simp [hc], by simp [hc], by simp [hc], by simp [hc], ?_,
        by simp [hc]⟩ <;>
        intro b <;> cases b <;> simp

/-- Witness for C9: a read completion at time 80 for a request issued at
time 50 samples latency 30 and counts one read, with no CPU handle
attached. -/
theorem nmpRecvTimingResp_contract_witness :
    (nmpRecvTimingResp 80 pktReadResp (initState false)).1 = true ∧
    (nmpRecvTimingResp 80 pktReadResp
        (initState false)).2.nmpStats.nmpAccessLatency = [30] ∧
    (nmpRecvTimingResp 80 pktReadResp
        (initState false)).2.nmpStats.nmpMemReads = 1 := by
  obtain ⟨h1, h2, h3, -, -, -⟩ :=
    nmpRecvTimingResp_contract 80 pktReadResp (initState false)
  exact ⟨h1, by rw [h2]; rfl, by rw [(h3 rfl).1]; rfl⟩

/-- Claim C10 (implicit): `CXLMemory::getPort` asked for `nmp_mem_port`
panics (aborts the simulation) when NMP is disabled, and returns the NMP
memory port when NMP is enabled. -/
theorem getPort_nmp_contract (s : CXLMemoryState) :
    (s.enableNMP = false →
      getPort s "nmp_mem_port" = GetPortResult.panicked) ∧
    (s.enableNMP = true →
      getPort s "nmp_mem_port" = GetPortResult.port PortRef.nmpMemPort) := by
  unfold getPort
  constructor
  · intro h
    simp [h]
  · intro h
    simp [h]

/-- Witness for C10: the fresh device with NMP disabled panics on the
request; with NMP enabled it hands out the port. -/
theorem getPort_nmp_contract_witness :
    getPort (initState false) "nmp_mem_port" = GetPortResult.panicked ∧
    getPort (initState true) "nmp_mem_port"
      = GetPortResult.port PortRef.nmpMemPort :=
  ⟨(getPort_nmp_contract (initState false)).1 rfl,
   (getPort_nmp_contract (initState true)).2 rfl⟩

end CXLDMSim
